import Mathlib

/-!
Verification of the customer-returns management backend
(`returns` Django app: `models.py`, `views.py`, `webhooks.py`, `admin.py`,
business configuration from `ecommerce_oms/settings.py`).

The embedding models the database as an explicit state (`St`) holding the
lists of orders, return requests, status-history rows and fraud flags.
Each HTTP handler becomes a pure function from the state (plus the parsed
request payload and the current time, in integer seconds) to a result
value and a new state.  Monetary amounts are natural numbers of rupees;
timestamps are integers (seconds), so that `timedelta(days=n)` becomes
`n * 86400` and Python's `timedelta.days` on a non-negative delta becomes
division by `86400`.
-/

/-- Status values of `Order.STATUS_CHOICES` in `models.py`. -/
inductive OStatus
  | pending
  | confirmed
  | shipped
  | delivered
  | cancelled
deriving DecidableEq, Repr

/-- Status values of `ReturnRequest.STATUS_CHOICES` in `models.py`. -/
inductive RStatus
  | pending
  | approved
  | rejected
  | pickup_scheduled
  | picked_up
  | warehouse_received
  | quality_check
  | refund_initiated
  | refund_completed
  | cancelled
  | closed
deriving DecidableEq, Repr

/-- The stored string value of a `ReturnRequest` status (the first element
of each pair of `STATUS_CHOICES`). -/
def statusStr : RStatus → String
  | .pending => "pending"
  | .approved => "approved"
  | .rejected => "rejected"
  | .pickup_scheduled => "pickup_scheduled"
  | .picked_up => "picked_up"
  | .warehouse_received => "warehouse_received"
  | .quality_check => "quality_check"
  | .refund_initiated => "refund_initiated"
  | .refund_completed => "refund_completed"
  | .cancelled => "cancelled"
  | .closed => "closed"

/-- The stored string value of an `Order` status. -/
def ostatusStr : OStatus → String
  | .pending => "pending"
  | .confirmed => "confirmed"
  | .shipped => "shipped"
  | .delivered => "delivered"
  | .cancelled => "cancelled"

/-- An `Order` row (`models.py`), restricted to the fields the returns
logic reads. -/
structure Order where
  id : Nat
  order_number : String
  customer_id : Nat
  customer_name : String
  customer_email : String
  category : String
  total_amount : Nat
  status : OStatus
  delivered_at : Option Int
deriving DecidableEq, Repr

/-- A `ReturnRequest` row (`models.py`), restricted to the fields the
returns logic reads or writes. -/
structure ReturnRequest where
  id : Nat
  return_number : String
  order_id : Nat
  customer_id : Nat
  customer_name : String
  customer_email : String
  reason : String
  reason_description : String
  status : RStatus
  refund_method : String
  refund_amount : Nat
  refund_reference : String
  pickup_address : String
  pickup_pincode : String
  pickup_scheduled_date : Option Int
  pickup_completed_date : Option Int
  logistics_partner : String
  tracking_number : String
  idempotency_key : Option String
  is_flagged : Bool
  is_high_value : Bool
  created_at : Int
deriving DecidableEq, Repr

/-- A `ReturnStatusHistory` row (`models.py`).  `from_status = none`
models the empty string used for the initial entry. -/
structure HistoryRow where
  return_id : Nat
  from_status : Option RStatus
  to_status : RStatus
  changed_by : String
  comment : String
deriving DecidableEq, Repr

/-- A `FraudFlag` row (`models.py`), restricted to the fields written at
creation time (review status always starts `open`). -/
structure FraudFlag where
  return_id : Nat
  customer_id : Nat
  flag_type : String
  description : String
deriving DecidableEq, Repr

/-- The database state visible to the returns module. -/
structure St where
  returns : List ReturnRequest
  history : List HistoryRow
  flags : List FraudFlag
deriving DecidableEq, Repr

/-- The `RETURN_POLICY` configuration dictionary (`settings.py`). -/
structure Policy where
  default_return_window_days : Nat
  electronics_return_window_days : Nat
  fashion_return_window_days : Nat
  max_returns_per_month : Nat
  high_value_threshold : Nat
deriving DecidableEq, Repr

/-- The concrete `RETURN_POLICY` values from `ecommerce_oms/settings.py`. -/
def RETURN_POLICY : Policy :=
  { default_return_window_days := 7
    electronics_return_window_days := 10
    fashion_return_window_days := 30
    max_returns_per_month := 10
    high_value_threshold := 10000 }

/-- Seconds in a day, the unit behind `timedelta(days=n)`. -/
def daySecs : Int := 86400

/-- The category-specific return window: the `category_windows` dictionary
lookup with fallback to the default window (`views.py`,
`_check_eligibility`). -/
def returnWindowDays (policy : Policy) (category : String) : Nat :=
  if category = "electronics" then policy.electronics_return_window_days
  else if category = "fashion" then policy.fashion_return_window_days
  else policy.default_return_window_days

/-- The `active_statuses` list of `_check_eligibility` (`views.py`). -/
def activeStatuses : List RStatus :=
  [.pending, .approved, .pickup_scheduled, .picked_up,
   .warehouse_received, .quality_check, .refund_initiated]

/-- The `ReturnRequest.objects.filter(order=order, status__in=active_statuses).exists()`
query of `_check_eligibility`. -/
def hasActiveReturn (returns : List ReturnRequest) (orderId : Nat) : Bool :=
  returns.any (fun r => r.order_id = orderId ∧ r.status ∈ activeStatuses)

/-- The result dictionary of `_check_eligibility`, one constructor per
`return` statement of the source function, carrying the numeric fields
that branch reports. -/
inductive EligStatus
  | notDelivered (current : OStatus)
  | noDeliveryDate
  | windowExpired (daysOverdue : Nat) (windowDays : Nat) (deadline : Int)
  | activeReturn
  | ok (windowDays : Nat) (daysRemaining : Nat) (deadline : Int)
deriving DecidableEq, Repr

/-- The `eligible` key of the result dictionary. -/
def EligStatus.eligible : EligStatus → Bool
  | .ok _ _ _ => true
  | _ => false

/-- The `reason` string of each ineligible branch of `_check_eligibility`
(`views.py`), reproduced from the source f-strings. -/
def eligReason (category : String) : EligStatus → String
  | .notDelivered cur =>
      "Order is not delivered yet. Current status: " ++ ostatusStr cur
  | .noDeliveryDate => "Delivery date not recorded"
  | .windowExpired overdue w _ =>
      "Return window expired " ++ toString overdue ++ " day(s) ago. " ++
      "Return window for " ++ category ++ " is " ++ toString w ++ " days."
  | .activeReturn => "An active return request already exists for this order."
  | .ok _ _ _ => ""

/-- `_check_eligibility(order)` from `views.py`: delivered check, delivery
timestamp check, category window deadline, expiry check, and the
active-return check, in source order. -/
def check_eligibility (st : St) (order : Order) (policy : Policy) (now : Int) :
    EligStatus :=
  if order.status ≠ .delivered then .notDelivered order.status
  else
    match order.delivered_at with
    | none => .noDeliveryDate
    | some d =>
      let w := returnWindowDays policy order.category
      let deadline := d + w * daySecs
      if now > deadline then
        .windowExpired ((now - deadline).toNat / 86400) w deadline
      else if hasActiveReturn st.returns order.id then .activeReturn
      else .ok w ((deadline - now).toNat / 86400) deadline

/-- The validated body of `POST /api/v1/returns/`
(`CreateReturnRequestSerializer` output, `views.py`).  `data.get(k)` on an
absent optional field models as `none`. -/
structure CreateData where
  reason : String
  reason_description : String := ""
  refund_method : String := "original"
  pickup_address : String
  pickup_pincode : String
  idempotency_key : Option String := none
deriving DecidableEq, Repr

/-- The response of `create_return` (`views.py`): duplicate hit (HTTP 200),
eligibility rejection (HTTP 400), or newly created (HTTP 201).  The
`duplicate`/`created` payload is the serialized in-memory return object. -/
inductive CreateResult
  | duplicate (existing : ReturnRequest)
  | notEligible (reason : String)
  | created (rr : ReturnRequest)
deriving DecidableEq, Repr

/-- The HTTP status code attached to each branch of `create_return`. -/
def createHttpStatus : CreateResult → Nat
  | .duplicate _ => 200
  | .notEligible _ => 400
  | .created _ => 201

/-- `_check_fraud_flags(return_request, order)` from `views.py`: the three
rule checks in source order, returning the updated state and the
`flags_created` list.  The just-created return is already in `st.returns`
when this runs (it was saved first), matching the Python count that
includes it. -/
def check_fraud_flags (st : St) (rr : ReturnRequest) (order : Order)
    (policy : Policy) (now : Int) : St × List FraudFlag :=
  let thirtyDaysAgo := now - 30 * daySecs
  let recentReturnsCount :=
    (st.returns.filter (fun r =>
      r.customer_id = rr.customer_id ∧ thirtyDaysAgo ≤ r.created_at)).length
  let flags1 : List FraudFlag :=
    if recentReturnsCount > policy.max_returns_per_month then
      [{ return_id := rr.id, customer_id := rr.customer_id
         flag_type := "frequent_returns"
         description := "Customer has " ++ toString recentReturnsCount ++
           " returns in the last 30 days. Threshold: " ++
           toString policy.max_returns_per_month }]
    else []
  let flags2 : List FraudFlag :=
    if order.total_amount ≥ policy.high_value_threshold then
      [{ return_id := rr.id, customer_id := rr.customer_id
         flag_type := "high_value"
         description := "Return amount Rs." ++ toString order.total_amount ++
           " exceeds threshold of Rs." ++ toString policy.high_value_threshold }]
    else []
  let flags3 : List FraudFlag :=
    match order.delivered_at with
    | some d =>
      if now - d < 3600 then
        [{ return_id := rr.id, customer_id := rr.customer_id
           flag_type := "quick_return"
           description := "Return requested within " ++
             toString ((now - d).toNat / 60) ++ " minutes of delivery" }]
      else []
    | none => []
  let flagsCreated := flags1 ++ flags2 ++ flags3
  let st1 := { st with flags := st.flags ++ flagsCreated }
  let st2 :=
    if flagsCreated.isEmpty then st1
    else { st1 with
            returns := st1.returns.map (fun r =>
              if r.id = rr.id then { r with is_flagged := true } else r) }
  (st2, flagsCreated)

/-- `create_return(request)` from `views.py` (after serializer validation
and the `Order.objects.get` lookup): idempotency short-circuit, eligibility
check, row creation with the high-value status branch, the initial history
row, and the fraud-flag pass.  `freshId`/`freshNumber` stand for the
database-assigned primary key and the generated `RET-xxxxxxxx` number. -/
def create_return (st : St) (order : Order) (data : CreateData)
    (policy : Policy) (now : Int) (freshId : Nat) (freshNumber : String) :
    CreateResult × St :=
  let dup : Option ReturnRequest :=
    match data.idempotency_key with
    | some k =>
      if k = "" then none
      else st.returns.find? (fun r => r.idempotency_key = some k)
    | none => none
  match dup with
  | some existing => (.duplicate existing, st)
  | none =>
    let elig := check_eligibility st order policy now
    if elig.eligible then
      let highValue := order.total_amount ≥ policy.high_value_threshold
      let rr : ReturnRequest :=
        { id := freshId
          return_number := freshNumber
          order_id := order.id
          customer_id := order.customer_id
          customer_name := order.customer_name
          customer_email := order.customer_email
          reason := data.reason
          reason_description := data.reason_description
          status := if highValue then .pending else .approved
          refund_method := data.refund_method
          refund_amount := order.total_amount
          refund_reference := ""
          pickup_address := data.pickup_address
          pickup_pincode := data.pickup_pincode
          pickup_scheduled_date := none
          pickup_completed_date := none
          logistics_partner := ""
          tracking_number := ""
          idempotency_key := data.idempotency_key
          is_flagged := false
          is_high_value := highValue
          created_at := now }
      let st1 : St := { st with returns := st.returns ++ [rr] }
      let row1 : HistoryRow :=
        { return_id := freshId, from_status := none, to_status := rr.status
          changed_by := "system"
          comment := "Return request created. Reason: " ++ data.reason }
      let st2 : St := { st1 with history := st1.history ++ [row1] }
      let cf := check_fraud_flags st2 rr order policy now
      let rrResp := if cf.2.isEmpty then rr else { rr with is_flagged := true }
      (.created rrResp, cf.1)
    else
      (.notEligible (eligReason order.category elig), st)

/-- The `cancellable_statuses` list of `cancel_return` (`views.py`). -/
def cancellableStatuses : List RStatus := [.pending, .approved, .pickup_scheduled]

/-- The rejection message of `cancel_return`, reproducing the source
f-string including the joined allowed set. -/
def cancelErrorMessage (cur : RStatus) : String :=
  "Cannot cancel return in \"" ++ statusStr cur ++ "\" status. " ++
  "Cancellation allowed only in: " ++
  String.intercalate ", " (cancellableStatuses.map statusStr)

/-- The response of `cancel_return` (`views.py`): 404, 400 with the
allowed-set message, or 200 with the return number. -/
inductive CancelResult
  | notFound
  | notCancellable (msg : String)
  | ok (return_number : String)
deriving DecidableEq, Repr

/-- `cancel_return(request, return_id)` from `views.py`. -/
def cancel_return (st : St) (returnId : Nat) : CancelResult × St :=
  match st.returns.find? (fun r => r.id = returnId) with
  | none => (.notFound, st)
  | some r =>
    if r.status ∈ cancellableStatuses then
      let st1 : St := { st with
        returns := st.returns.map (fun x =>
          if x.id = returnId then { x with status := RStatus.cancelled } else x) }
      let row : HistoryRow :=
        { return_id := returnId, from_status := some r.status
          to_status := .cancelled, changed_by := "customer"
          comment := "Cancelled by customer" }
      let st2 : St := { st1 with history := st1.history ++ [row] }
      (.ok r.return_number, st2)
    else
      (.notCancellable (cancelErrorMessage r.status), st)

/-- The shared webhook secret constant of `webhooks.py`. -/
def WEBHOOK_SECRET : String := "webhook-secret-token-123"

/-- `data.get('webhook_token') or request.headers.get('X-Webhook-Token')`:
Python `or` falls through to the header when the body token is absent or
empty (falsy). -/
def effectiveToken (body header : Option String) : Option String :=
  match body with
  | some s => if s = "" then header else some s
  | none => header

/-- The parsed body and token header of the logistics pickup webhook
(`webhooks.py`).  `none` models an absent key. -/
structure LogisticsPayload where
  webhook_token : Option String := none
  header_token : Option String := none
  return_number : Option String := none
  event : Option String := none
  tracking_number : Option String := none
  logistics_partner : Option String := none
  delivery_agent : Option String := none
  remarks : Option String := none
deriving DecidableEq, Repr

/-- The parsed body and token header of the refund status webhook
(`webhooks.py`). -/
structure RefundPayload where
  webhook_token : Option String := none
  header_token : Option String := none
  return_number : Option String := none
  refund_status : Option String := none
  refund_reference : Option String := none
  refund_amount : Option Nat := none
deriving DecidableEq, Repr

/-- The response of either webhook handler: 401, 400 (missing fields),
404, 400 (unknown event), or 200 with the new status. -/
inductive WebhookOutcome
  | authError
  | missingFields (missing : List String)
  | notFound (return_number : String)
  | unknownEvent (event : String)
  | ok (return_number : String) (newStatus : RStatus)
deriving DecidableEq, Repr

/-- The `event_status_map` dictionary of `logistics_pickup_webhook`,
whose `failed_attempt` entry is the return's current status.  `none`
models a key missing from the dictionary (`.get` returning `None`);
status strings are never empty, so Python's `if not new_status` check
coincides with the `none` check. -/
def logisticsEventTarget (cur : RStatus) : String → Option RStatus
  | "out_for_pickup" => some .pickup_scheduled
  | "picked_up" => some .picked_up
  | "failed_attempt" => some cur
  | "rescheduled" => some .pickup_scheduled
  | "warehouse_received" => some .warehouse_received
  | "quality_check_started" => some .quality_check
  | _ => none

/-- The history comment built by `logistics_pickup_webhook` from the
event, agent and remarks fields. -/
def logisticsComment (p : LogisticsPayload) (event : String) : String :=
  let agent := p.delivery_agent.getD ""
  let remarks := p.remarks.getD ""
  let c := "Logistics event: " ++ event
  let c := if agent ≠ "" then c ++ " | Agent: " ++ agent else c
  if remarks ≠ "" then c ++ " | " ++ remarks else c

/-- The per-row field updates of `logistics_pickup_webhook`: status, the
truthiness-guarded tracking/partner fields, and the event-specific pickup
dates. -/
def logisticsUpdate (p : LogisticsPayload) (event : String) (t : RStatus)
    (now : Int) (x : ReturnRequest) : ReturnRequest :=
  let x := { x with status := t }
  let x := match p.tracking_number with
    | some s => if s = "" then x else { x with tracking_number := s }
    | none => x
  let x := match p.logistics_partner with
    | some s => if s = "" then x else { x with logistics_partner := s }
    | none => x
  if event = "picked_up" then { x with pickup_completed_date := some now }
  else if event = "out_for_pickup" then { x with pickup_scheduled_date := some now }
  else x

/-- `logistics_pickup_webhook(request)` from `webhooks.py`: token check,
required-field check, lookup by return number, event mapping, row update,
history row, success response — in source order. -/
def logistics_pickup_webhook (st : St) (p : LogisticsPayload) (now : Int) :
    WebhookOutcome × St :=
  if effectiveToken p.webhook_token p.header_token ≠ some WEBHOOK_SECRET then
    (.authError, st)
  else
    let missing :=
      (if p.return_number.isNone then ["return_number"] else []) ++
      (if p.event.isNone then ["event"] else [])
    if missing ≠ [] then (.missingFields missing, st)
    else
      let rn := p.return_number.getD ""
      let event := p.event.getD ""
      match st.returns.find? (fun r => r.return_number = rn) with
      | none => (.notFound rn, st)
      | some r =>
        match logisticsEventTarget r.status event with
        | none => (.unknownEvent event, st)
        | some t =>
          let st1 : St := { st with
            returns := st.returns.map (fun x =>
              if x.id = r.id then logisticsUpdate p event t now x else x) }
          let row : HistoryRow :=
            { return_id := r.id, from_status := some r.status, to_status := t
              changed_by := "webhook", comment := logisticsComment p event }
          let st2 : St := { st1 with history := st1.history ++ [row] }
          (.ok rn t, st2)

/-- The `refund_status_map` dictionary of `refund_status_webhook`, whose
`failed` entry is the return's current status. -/
def refundStatusTarget (cur : RStatus) : String → Option RStatus
  | "initiated" => some .refund_initiated
  | "completed" => some .refund_completed
  | "failed" => some cur
  | _ => none

/-- The per-row field updates of `refund_status_webhook`: status plus the
truthiness-guarded reference and amount fields. -/
def refundUpdate (p : RefundPayload) (t : RStatus) (x : ReturnRequest) :
    ReturnRequest :=
  let x := { x with status := t }
  let x := match p.refund_reference with
    | some s => if s = "" then x else { x with refund_reference := s }
    | none => x
  match p.refund_amount with
  | some a => if a = 0 then x else { x with refund_amount := a }
  | none => x

/-- `refund_status_webhook(request)` from `webhooks.py`. -/
def refund_status_webhook (st : St) (p : RefundPayload) (_now : Int) :
    WebhookOutcome × St :=
  if effectiveToken p.webhook_token p.header_token ≠ some WEBHOOK_SECRET then
    (.authError, st)
  else
    let missing :=
      (if p.return_number.isNone then ["return_number"] else []) ++
      (if p.refund_status.isNone then ["refund_status"] else [])
    if missing ≠ [] then (.missingFields missing, st)
    else
      let rn := p.return_number.getD ""
      let rs := p.refund_status.getD ""
      match st.returns.find? (fun r => r.return_number = rn) with
      | none => (.notFound rn, st)
      | some r =>
        match refundStatusTarget r.status rs with
        | none => (.unknownEvent rs, st)
        | some t =>
          let st1 : St := { st with
            returns := st.returns.map (fun x =>
              if x.id = r.id then refundUpdate p t x else x) }
          let row : HistoryRow :=
            { return_id := r.id, from_status := some r.status, to_status := t
              changed_by := "webhook"
              comment := "Refund " ++ rs ++ ". Reference: " ++
                p.refund_reference.getD "N/A" }
          let st2 : St := { st1 with history := st1.history ++ [row] }
          (.ok rn t, st2)

/-- `ReturnRequestAdmin.approve_returns` (`admin.py`): the queryset is the
set of selected return ids; first `queryset.filter(status='pending')` is
updated to `approved`, then a history row is created for every selected
return whose status reads `approved` after that update (the lazy queryset
is re-evaluated). -/
def approve_returns (st : St) (selected : List Nat) (username : String) : St :=
  let returns1 := st.returns.map (fun r =>
    if r.id ∈ selected ∧ r.status = RStatus.pending then
      { r with status := RStatus.approved }
    else r)
  let rows := (returns1.filter (fun r =>
      r.id ∈ selected ∧ r.status = RStatus.approved)).map (fun r =>
    ({ return_id := r.id, from_status := some RStatus.pending
       to_status := RStatus.approved, changed_by := "admin:" ++ username
       comment := "Bulk approved via admin panel" } : HistoryRow))
  { st with returns := returns1, history := st.history ++ rows }

/-- `ReturnRequestAdmin.reject_returns` (`admin.py`), analogous to
`approve_returns` with target status `rejected`. -/
def reject_returns (st : St) (selected : List Nat) (username : String) : St :=
  let returns1 := st.returns.map (fun r =>
    if r.id ∈ selected ∧ r.status = RStatus.pending then
      { r with status := RStatus.rejected }
    else r)
  let rows := (returns1.filter (fun r =>
      r.id ∈ selected ∧ r.status = RStatus.rejected)).map (fun r =>
    ({ return_id := r.id, from_status := some RStatus.pending
       to_status := RStatus.rejected, changed_by := "admin:" ++ username
       comment := "Rejected via admin panel" } : HistoryRow))
  { st with returns := returns1, history := st.history ++ rows }

/-- `ReturnRequestAdmin.mark_as_pickup_scheduled` (`admin.py`): a bare
`update(status='pickup_scheduled')` on the selected `approved` returns,
with no history creation. -/
def mark_as_pickup_scheduled (st : St) (selected : List Nat) : St :=
  { st with returns := st.returns.map (fun r =>
      if r.id ∈ selected ∧ r.status = RStatus.approved then
        { r with status := RStatus.pickup_scheduled }
      else r) }

/-- The response body of `list_returns` (`views.py`): count, page number,
the fixed page size, and the serialized page slice. -/
structure ListResponse where
  count : Nat
  page : Nat
  pageSize : Nat
  results : List ReturnRequest
deriving DecidableEq, Repr

/-- The filter pipeline of `list_returns` (`views.py`): optional
customer-id, status-string and flagged filters over all returns. -/
def listFiltered (st : St) (customerId : Option Nat)
    (statusFilter : Option String) (isFlagged : Option String) :
    List ReturnRequest :=
  let qs := st.returns
  let qs := match customerId with
    | some c => qs.filter (fun r => r.customer_id = c)
    | none => qs
  let qs := match statusFilter with
    | some s => if s = "" then qs else qs.filter (fun r => statusStr r.status = s)
    | none => qs
  match isFlagged with
  | some s => if s ≠ "" ∧ s.toLower = "true" then qs.filter (fun r => r.is_flagged) else qs
  | none => qs

/-- `list_returns(request)` from `views.py`: filters, then page-number
pagination with the hard-coded `page_size = 20` slice
`queryset[(page-1)*20 : (page-1)*20 + 20]`.  The queryset's default
ordering (`-created_at` from the model Meta) only permutes rows, which no
verified property depends on, so the slice is taken in state order.
Requires `page ≥ 1` to match Python (a non-positive page makes the Python
slice raise). -/
def list_returns (st : St) (customerId : Option Nat)
    (statusFilter : Option String) (isFlagged : Option String) (page : Nat) :
    ListResponse :=
  let qs := listFiltered st customerId statusFilter isFlagged
  let pageSize := 20
  let start := (page - 1) * pageSize
  { count := qs.length
    page := page
    pageSize := pageSize
    results := (qs.drop start).take pageSize }

/-- Response shape of the cursor-based list operation described by the
spec (`next_cursor`, `prev_cursor`, `has_more`). -/
structure CursorListResponse where
  results : List ReturnRequest
  nextCursor : Option Nat
  prevCursor : Option Nat
  hasMore : Bool
deriving DecidableEq, Repr

/-- Modelled from the spec: the cursor-based pagination that §6 describes
for the list operation — `page_size` capped at 100, ordering by the
return's identifier ascending for `direction=next`, results after the
cursor, response carrying `next_cursor`/`prev_cursor` and `has_more`.
No such behavior exists in `views.py`: its `list_returns` paginates by
page number with a hard-coded page size of 20 and never reads a
`page_size` or `cursor` parameter.  This definition follows the spec's
words and exists only to be compared against the source's
`list_returns`. -/
def insertById (x : ReturnRequest) : List ReturnRequest → List ReturnRequest
  | [] => [x]
  | y :: ys => if x.id ≤ y.id then x :: y :: ys else y :: insertById x ys

/-- Insertion sort by the return's identifier, ascending — the `next`
ordering the spec prescribes for the cursor-based list operation. -/
def sortById : List ReturnRequest → List ReturnRequest
  | [] => []
  | x :: xs => insertById x (sortById xs)

def list_returns_specModel (returns : List ReturnRequest) (cursor : Option Nat)
    (pageSize : Nat) : CursorListResponse :=
  let ps := min pageSize 100
  let ordered := sortById returns
  let after : List ReturnRequest :=
    match cursor with
    | some c => ordered.filter (fun r => c < r.id)
    | none => ordered
  let page : List ReturnRequest := after.take ps
  { results := page
    nextCursor := page.getLast?.map (fun r => r.id)
    prevCursor := page.head?.map (fun r => r.id)
    hasMore := ps < after.length }

/-! ### Concrete data used by witnesses and counterexamples -/

/-- A concrete delivered low-value order (category outside the mapped
windows, so the 7-day default applies). -/
def orderW : Order :=
  { id := 1, order_number := "ORD-1", customer_id := 7
    customer_name := "Asha", customer_email := "asha@example.com"
    category := "books", total_amount := 4999, status := .delivered
    delivered_at := some 0 }

/-- A concrete delivered high-value order (total at the Rs.10,000
threshold and above). -/
def orderHV : Order :=
  { orderW with id := 2, order_number := "ORD-2", total_amount := 15000 }

/-- A concrete return-request row builder for witness states. -/
def mkReturn (i : Nat) (rn : String) (oid cid : Nat) (s : RStatus) :
    ReturnRequest :=
  { id := i, return_number := rn, order_id := oid, customer_id := cid
    customer_name := "Asha", customer_email := "asha@example.com"
    reason := "defective", reason_description := "", status := s
    refund_method := "original", refund_amount := 4999, refund_reference := ""
    pickup_address := "12 Main St", pickup_pincode := "560001"
    pickup_scheduled_date := none, pickup_completed_date := none
    logistics_partner := "", tracking_number := "", idempotency_key := none
    is_flagged := false, is_high_value := false, created_at := 0 }

/-- A concrete creation request body. -/
def dataW : CreateData :=
  { reason := "defective", pickup_address := "12 Main St"
    pickup_pincode := "560001" }

/-- A concrete creation request body carrying an idempotency key. -/
def dataK : CreateData := { dataW with idempotency_key := some "idem-1" }

/-- Witness state for the webhook-transition claim: one approved return. -/
def stC1 : St := { returns := [mkReturn 1 "RET-1" 1 7 .approved], history := [], flags := [] }

/-- Authenticated logistics payload reporting a pickup for `RET-1`. -/
def pC1 : LogisticsPayload :=
  { webhook_token := some WEBHOOK_SECRET, return_number := some "RET-1"
    event := some "picked_up", delivery_agent := some "Ramesh K" }

/-- Authenticated refund payload reporting an initiated refund for `RET-1`. -/
def qC1 : RefundPayload :=
  { webhook_token := some WEBHOOK_SECRET, return_number := some "RET-1"
    refund_status := some "initiated", refund_reference := some "REF-9" }

/-- Witness state for the cancellation claim: an approved return and a
picked-up return. -/
def stC2 : St :=
  { returns := [mkReturn 1 "RET-1" 1 7 .approved, mkReturn 2 "RET-2" 1 7 .picked_up]
    history := [], flags := [] }

/-- The empty database state. -/
def stEmpty : St := { returns := [], history := [], flags := [] }

/-- Witness state for the active-return claim: a picked-up (active) return
on order 1. -/
def stC5 : St := { returns := [mkReturn 1 "RET-1" 1 7 .picked_up], history := [], flags := [] }

/-- Counterexample state for the window claim: an active return on order 1
while the window is still open. -/
def stC6 : St := { returns := [mkReturn 1 "RET-1" 1 7 .approved], history := [], flags := [] }

/-- Witness state for the authentication claim: `RET-1` exists. -/
def stC7 : St := { returns := [mkReturn 1 "RET-1" 1 7 .approved], history := [], flags := [] }

/-- Logistics payload with a wrong token but a valid return number. -/
def pC7 : LogisticsPayload :=
  { webhook_token := some "wrong-token", return_number := some "RET-1"
    event := some "picked_up" }

/-- Refund payload with no token anywhere but a valid return number. -/
def qC7 : RefundPayload :=
  { return_number := some "RET-1", refund_status := some "completed" }

/-- Counterexample state for the admin-actions claim: one pending and one
already-approved return, both selected. -/
def stC8 : St :=
  { returns := [mkReturn 1 "RET-1" 1 7 .pending, mkReturn 2 "RET-2" 1 7 .approved]
    history := [], flags := [] }

/-- Counterexample state for the pagination claim: 25 returns. -/
def stC9 : St :=
  { returns := (List.range 25).map (fun i => mkReturn (i + 1) ("R" ++ toString (i + 1)) 1 7 .approved)
    history := [], flags := [] }

/-- Witness state for the idempotency-before-eligibility claim: a
completed return created with key `idem-9`, on an order whose window has
long expired. -/
def stC10 : St :=
  { returns := [{ mkReturn 1 "RET-1" 1 7 .refund_completed with idempotency_key := some "idem-9" }]
    history := [], flags := [] }

/-- Creation request retrying key `idem-9`. -/
def dataC10 : CreateData := { dataW with idempotency_key := some "idem-9" }

/-! ### Claims -/

/-- C2: for every return, customer cancellation succeeds iff the current
status is one of `pending`, `approved`, `pickup_scheduled`; on success the
status becomes `cancelled` and exactly one history row with
`to_status=cancelled` and actor `customer` is appended; otherwise the
operation is rejected with the message citing the allowed set, the state
is unchanged and no history row is created. -/
theorem cancel_return_spec (st : St) (rid : Nat) (r : ReturnRequest)
    (h : st.returns.find? (fun x => x.id = rid) = some r) :
    (r.status ∈ cancellableStatuses →
      (cancel_return st rid).1 = CancelResult.ok r.return_number ∧
      (∀ x ∈ (cancel_return st rid).2.returns, x.id = rid → x.status = RStatus.cancelled) ∧
      (cancel_return st rid).2.history = st.history ++
        [{ return_id := rid, from_status := some r.status
           to_status := RStatus.cancelled, changed_by := "customer"
           comment := "Cancelled by customer" }]) ∧
    (r.status ∉ cancellableStatuses →
      (cancel_return st rid).1 = CancelResult.notCancellable (cancelErrorMessage r.status) ∧
      (cancel_return st rid).2 = st) := by
  constructor
  · intro hc
    unfold cancel_return
    rw [h]
    simp only [hc, if_true, reduceIte]
    refine ⟨trivial, ?_, trivial⟩
    intro x hx hid
    rcases List.mem_map.mp hx with ⟨a, _, rfl⟩
    by_cases hai : a.id = rid
    · simp [hai]
    · simp [hai] at hid ⊢
  · intro hc
    unfold cancel_return
    rw [h]
    simp only [hc, if_false, reduceIte]
    exact ⟨trivial, trivial⟩

/-- Witness for `cancel_return_spec`: cancelling the approved `RET-1` in
`stC2` succeeds, while cancelling the picked-up `RET-2` is rejected with
the state unchanged. -/
theorem cancel_return_spec_witness :
    (cancel_return stC2 1).1 = CancelResult.ok "RET-1" ∧
    (cancel_return stC2 2).1 = CancelResult.notCancellable (cancelErrorMessage RStatus.picked_up) ∧
    (cancel_return stC2 2).2 = stC2 := by
  have h1 := cancel_return_spec stC2 1 (mkReturn 1 "RET-1" 1 7 .approved) rfl
  have h2 := cancel_return_spec stC2 2 (mkReturn 2 "RET-2" 1 7 .picked_up) rfl
  exact ⟨(h1.1 (by decide)).1, (h2.2 (by decide)).1, (h2.2 (by decide)).2⟩

/-- The field updates of the logistics webhook never change the status it
just assigned. -/
theorem logisticsUpdate_status (p : LogisticsPayload) (ev : String)
    (t : RStatus) (now : Int) (x : ReturnRequest) :
    (logisticsUpdate p ev t now x).status = t := by
  rcases htr : p.tracking_number with _ | s1 <;>
    rcases hlp : p.logistics_partner with _ | s2 <;>
      simp only [logisticsUpdate, htr, hlp] <;> split_ifs <;> rfl

/-- The field updates of the refund webhook never change the status it
just assigned. -/
theorem refundUpdate_status (p : RefundPayload) (t : RStatus)
    (x : ReturnRequest) : (refundUpdate p t x).status = t := by
  rcases hrr : p.refund_reference with _ | s1 <;>
    rcases hra : p.refund_amount with _ | a <;>
      simp only [refundUpdate, hrr, hra] <;> split_ifs <;> rfl

/-- C1: every authenticated webhook request naming an existing return and
carrying a known event sets the return's status to the event's target
regardless of the prior status — the targets being `pickup_scheduled` for
`out_for_pickup`/`rescheduled`, `picked_up`, `warehouse_received`,
`quality_check` for `quality_check_started`, `refund_initiated` for
`initiated`, `refund_completed` for `completed`, and the unchanged current
status for `failed_attempt`/`failed` — and appends exactly one history row
recording the true previous status, the new status, and actor
`webhook`. -/
theorem webhook_transitions :
    (∀ c : RStatus,
      logisticsEventTarget c "out_for_pickup" = some .pickup_scheduled ∧
      logisticsEventTarget c "rescheduled" = some .pickup_scheduled ∧
      logisticsEventTarget c "picked_up" = some .picked_up ∧
      logisticsEventTarget c "warehouse_received" = some .warehouse_received ∧
      logisticsEventTarget c "quality_check_started" = some .quality_check ∧
      logisticsEventTarget c "failed_attempt" = some c ∧
      refundStatusTarget c "initiated" = some .refund_initiated ∧
      refundStatusTarget c "completed" = some .refund_completed ∧
      refundStatusTarget c "failed" = some c) ∧
    (∀ (st : St) (p : LogisticsPayload) (now : Int) (r : ReturnRequest)
        (rn ev : String) (t : RStatus),
      effectiveToken p.webhook_token p.header_token = some WEBHOOK_SECRET →
      p.return_number = some rn → p.event = some ev →
      st.returns.find? (fun x => x.return_number = rn) = some r →
      logisticsEventTarget r.status ev = some t →
      (logistics_pickup_webhook st p now).1 = WebhookOutcome.ok rn t ∧
      (∀ x ∈ (logistics_pickup_webhook st p now).2.returns,
        x.id = r.id → x.status = t) ∧
      (logistics_pickup_webhook st p now).2.history = st.history ++
        [{ return_id := r.id, from_status := some r.status, to_status := t
           changed_by := "webhook", comment := logisticsComment p ev }]) ∧
    (∀ (st : St) (q : RefundPayload) (now : Int) (r : ReturnRequest)
        (rn rs : String) (t : RStatus),
      effectiveToken q.webhook_token q.header_token = some WEBHOOK_SECRET →
      q.return_number = some rn → q.refund_status = some rs →
      st.returns.find? (fun x => x.return_number = rn) = some r →
      refundStatusTarget r.status rs = some t →
      (refund_status_webhook st q now).1 = WebhookOutcome.ok rn t ∧
      (∀ x ∈ (refund_status_webhook st q now).2.returns,
        x.id = r.id → x.status = t) ∧
      (refund_status_webhook st q now).2.history = st.history ++
        [{ return_id := r.id, from_status := some r.status, to_status := t
           changed_by := "webhook"
           comment := "Refund " ++ rs ++ ". Reference: " ++
             q.refund_reference.getD "N/A" }]) := by
  refine ⟨fun c => ⟨rfl, rfl, rfl, rfl, rfl, rfl, rfl, rfl, rfl⟩, ?_, ?_⟩
  · intro st p now r rn ev t htok hrn hev hfind hmap
    unfold logistics_pickup_webhook
    rw [htok]
    simp only [hrn, hev, Option.isNone_some, Option.getD_some]
    rw [hfind]
    simp only [hmap]
    refine ⟨rfl, ?_, rfl⟩
    intro x hx hid
    rcases List.mem_map.mp hx with ⟨a, _, rfl⟩
    by_cases hai : a.id = r.id
    · simp only [hai, if_true, reduceIte]
      exact logisticsUpdate_status p ev t now a
    · simp [hai] at hid ⊢
  · intro st q now r rn rs t htok hrn hrs hfind hmap
    unfold refund_status_webhook
    rw [htok]
    simp only [hrn, hrs, Option.isNone_some, Option.getD_some]
    rw [hfind]
    simp only [hmap]
    refine ⟨rfl, ?_, rfl⟩
    intro x hx hid
    rcases List.mem_map.mp hx with ⟨a, _, rfl⟩
    by_cases hai : a.id = r.id
    · simp only [hai, if_true, reduceIte]
      exact refundUpdate_status q t a
    · simp [hai] at hid ⊢

/-- Witness for `webhook_transitions`: on `stC1`, the authenticated
`picked_up` logistics event and the authenticated `initiated` refund event
both succeed against the approved `RET-1`. -/
theorem webhook_transitions_witness :
    (logistics_pickup_webhook stC1 pC1 5000).1 = WebhookOutcome.ok "RET-1" RStatus.picked_up ∧
    (refund_status_webhook stC1 qC1 5000).1 = WebhookOutcome.ok "RET-1" RStatus.refund_initiated := by
  have h1 := webhook_transitions.2.1 stC1 pC1 5000 (mkReturn 1 "RET-1" 1 7 .approved)
    "RET-1" "picked_up" RStatus.picked_up rfl rfl rfl rfl rfl
  have h2 := webhook_transitions.2.2 stC1 qC1 5000 (mkReturn 1 "RET-1" 1 7 .approved)
    "RET-1" "initiated" RStatus.refund_initiated rfl rfl rfl rfl rfl
  exact ⟨h1.1, h2.1⟩

/-- C7: a webhook request whose effective shared-secret token (body field,
falling back to the header) is missing or wrong is rejected with an
authentication error and leaves the state — returns, history and flags —
completely unchanged, even when the payload names a valid return. -/
theorem webhook_auth_required (st : St) (p : LogisticsPayload)
    (q : RefundPayload) (now : Int)
    (hp : effectiveToken p.webhook_token p.header_token ≠ some WEBHOOK_SECRET)
    (hq : effectiveToken q.webhook_token q.header_token ≠ some WEBHOOK_SECRET) :
    (logistics_pickup_webhook st p now).1 = WebhookOutcome.authError ∧
    (logistics_pickup_webhook st p now).2 = st ∧
    (refund_status_webhook st q now).1 = WebhookOutcome.authError ∧
    (refund_status_webhook st q now).2 = st := by
  unfold logistics_pickup_webhook refund_status_webhook
  rw [if_pos hp, if_pos hq]
  exact ⟨rfl, rfl, rfl, rfl⟩

/-- Witness for `webhook_auth_required`: a wrong body token and an absent
token are both rejected on `stC7`, which contains the named `RET-1`. -/
theorem webhook_auth_required_witness :
    (logistics_pickup_webhook stC7 pC7 0).1 = WebhookOutcome.authError ∧
    (logistics_pickup_webhook stC7 pC7 0).2 = stC7 ∧
    (refund_status_webhook stC7 qC7 0).1 = WebhookOutcome.authError ∧
    (refund_status_webhook stC7 qC7 0).2 = stC7 :=
  webhook_auth_required stC7 pC7 qC7 0 (by decide) (by decide)

/-- An eligible verdict is only reached after the active-return check
fails: `ok` implies no active return exists on the order. -/
theorem check_eligibility_ok_not_active (st : St) (order : Order)
    (policy : Policy) (now : Int) (w d : Nat) (dl : Int)
    (h : check_eligibility st order policy now = EligStatus.ok w d dl) :
    hasActiveReturn st.returns order.id = false := by
  by_cases hact : hasActiveReturn st.returns order.id = true
  · exfalso
    unfold check_eligibility at h
    split at h
    · simp at h
    · split at h
      · simp at h
      · simp only [hact, if_true, reduceIte] at h
        split at h <;> simp at h
  · cases hb : hasActiveReturn st.returns order.id
    · rfl
    · exact absurd hb hact

/-- An eligible verdict implies no active return exists on the order. -/
theorem eligible_true_not_active (st : St) (order : Order) (policy : Policy)
    (now : Int) (h : (check_eligibility st order policy now).eligible = true) :
    hasActiveReturn st.returns order.id = false := by
  cases hres : check_eligibility st order policy now
  case ok w d dl => exact check_eligibility_ok_not_active st order policy now w d dl hres
  all_goals rw [hres] at h
  all_goals simp [EligStatus.eligible] at h

/-- A member of the returns list that is active on the order makes
`hasActiveReturn` true. -/
theorem hasActive_of_mem (returns : List ReturnRequest) (oid : Nat)
    (r : ReturnRequest) (hr : r ∈ returns) (hord : r.order_id = oid)
    (hstat : r.status ∈ activeStatuses) :
    hasActiveReturn returns oid = true := by
  unfold hasActiveReturn
  rw [List.any_eq_true]
  exact ⟨r, hr, by simp [hord, hstat]⟩

/-- C5: when an order already has a return whose status lies in the active
set, eligibility evaluation is negative and the creation flow never adds a
return row; conversely a return is created only when every existing return
on the order is outside the active set. -/
theorem one_active_return_invariant :
    (∀ (st : St) (order : Order) (policy : Policy) (now : Int),
      (∃ r ∈ st.returns, r.order_id = order.id ∧ r.status ∈ activeStatuses) →
      (check_eligibility st order policy now).eligible = false ∧
      ∀ (data : CreateData) (freshId : Nat) (freshNumber : String),
        (create_return st order data policy now freshId freshNumber).2.returns = st.returns) ∧
    (∀ (st : St) (order : Order) (data : CreateData) (policy : Policy)
        (now : Int) (freshId : Nat) (freshNumber : String) (rr : ReturnRequest),
      (create_return st order data policy now freshId freshNumber).1 = CreateResult.created rr →
      ∀ r ∈ st.returns, r.order_id = order.id → r.status ∉ activeStatuses) := by
  constructor
  · intro st order policy now hex
    rcases hex with ⟨r, hr, hord, hstat⟩
    have hact := hasActive_of_mem st.returns order.id r hr hord hstat
    have helig : (check_eligibility st order policy now).eligible = false := by
      cases heb : (check_eligibility st order policy now).eligible
      · rfl
      · have := eligible_true_not_active st order policy now heb
        rw [hact] at this
        exact absurd this (by simp)
    refine ⟨helig, ?_⟩
    intro data freshId freshNumber
    unfold create_return
    rcases hkey : data.idempotency_key with _ | k <;> simp only [hkey]
    · simp [helig]
    · by_cases hk : k = ""
      · simp only [hk, if_true, reduceIte]
        simp [helig]
      · simp only [hk, if_false, reduceIte]
        rcases hf : st.returns.find? (fun r => r.idempotency_key = some k) with _ | ex <;>
          simp only [hf]
        simp [helig]
  · intro st order data policy now freshId freshNumber rr hres r hr hord hstat
    have hact := hasActive_of_mem st.returns order.id r hr hord hstat
    unfold create_return at hres
    rcases hkey : data.idempotency_key with _ | k <;> simp only [hkey] at hres
    · split at hres
      · rename_i heq
        have := eligible_true_not_active st order policy now heq
        rw [hact] at this
        exact absurd this (by simp)
      · exact absurd hres (by simp)
    · by_cases hk : k = ""
      · simp only [hk, if_true, reduceIte] at hres
        split at hres
        · rename_i heq
          have := eligible_true_not_active st order policy now heq
          rw [hact] at this
          exact absurd this (by simp)
        · exact absurd hres (by simp)
      · simp only [hk, if_false, reduceIte] at hres
        rcases hf : st.returns.find? (fun r => r.idempotency_key = some k) with _ | ex <;>
          simp only [hf] at hres
        · split at hres
          · rename_i heq
            have := eligible_true_not_active st order policy now heq
            rw [hact] at this
            exact absurd this (by simp)
          · exact absurd hres (by simp)
        · exact absurd hres (by simp)

/-- Witness for `one_active_return_invariant`: the picked-up `RET-1` on
order 1 makes `orderW` ineligible and blocks creation of a second row. -/
theorem one_active_return_invariant_witness :
    (check_eligibility stC5 orderW RETURN_POLICY 7200).eligible = false ∧
    (create_return stC5 orderW dataW RETURN_POLICY 7200 2 "RET-2").2.returns = stC5.returns := by
  have h := one_active_return_invariant.1 stC5 orderW RETURN_POLICY 7200
    ⟨mkReturn 1 "RET-1" 1 7 .picked_up, by simp [stC5], rfl, by decide⟩
  exact ⟨h.1, h.2 dataW 2 "RET-2"⟩

/-- Counterexample for C6 as stated: `orderW` is delivered with a recorded
delivery timestamp and the current time (5) is not after the deadline,
yet because `stC6` holds an active return on the order, evaluation yields
`activeReturn` — a result that reports neither the window length, nor the
days remaining, nor the deadline, contradicting the claim's
`otherwise` clause. -/
theorem eligibility_window_counterexample :
    orderW.status = OStatus.delivered ∧
    orderW.delivered_at = some 0 ∧
    ¬((0 : Int) + (returnWindowDays RETURN_POLICY orderW.category : Int) * daySecs < 5) ∧
    check_eligibility stC6 orderW RETURN_POLICY 5 = EligStatus.activeReturn :=
  ⟨rfl, rfl, by decide, rfl⟩

/-- C6 (amended): for every delivered order with a recorded delivery
timestamp, eligibility computes `deadline = delivered_at + window_days`
with window 10 for electronics, 30 for fashion and the default 7
otherwise; the result is the window-expiry verdict (with days overdue
floored to whole days) exactly when the current time is after the
deadline; and otherwise, provided no active return exists on the order,
the result reports the window length, the days remaining floored to whole
days, and the deadline. -/
theorem eligibility_window_amended (st : St) (order : Order) (now d : Int)
    (w : Nat) (deadline : Int)
    (hst : order.status = OStatus.delivered)
    (hd : order.delivered_at = some d)
    (hw : w = returnWindowDays RETURN_POLICY order.category)
    (hdl : deadline = d + (w : Int) * daySecs) :
    (returnWindowDays RETURN_POLICY "electronics" = 10 ∧
     returnWindowDays RETURN_POLICY "fashion" = 30 ∧
     (order.category ≠ "electronics" → order.category ≠ "fashion" → w = 7)) ∧
    ((∃ o w2 dl, check_eligibility st order RETURN_POLICY now =
        EligStatus.windowExpired o w2 dl) ↔ deadline < now) ∧
    (deadline < now →
      check_eligibility st order RETURN_POLICY now =
        EligStatus.windowExpired ((now - deadline).toNat / 86400) w deadline) ∧
    (¬ deadline < now → hasActiveReturn st.returns order.id = false →
      check_eligibility st order RETURN_POLICY now =
        EligStatus.ok w ((deadline - now).toNat / 86400) deadline) := by
  subst hw
  subst hdl
  have hstep : check_eligibility st order RETURN_POLICY now =
      (if d + (returnWindowDays RETURN_POLICY order.category : Int) * daySecs < now then
        EligStatus.windowExpired
          ((now - (d + (returnWindowDays RETURN_POLICY order.category : Int) * daySecs)).toNat / 86400)
          (returnWindowDays RETURN_POLICY order.category)
          (d + (returnWindowDays RETURN_POLICY order.category : Int) * daySecs)
      else if hasActiveReturn st.returns order.id then EligStatus.activeReturn
      else EligStatus.ok (returnWindowDays RETURN_POLICY order.category)
        (((d + (returnWindowDays RETURN_POLICY order.category : Int) * daySecs) - now).toNat / 86400)
        (d + (returnWindowDays RETURN_POLICY order.category : Int) * daySecs)) := by
    unfold check_eligibility
    rw [hd]
    simp only [hst, ne_eq, not_true_eq_false, if_false, reduceIte]
  refine ⟨⟨by decide, by decide, ?_⟩, ⟨?_, ?_⟩, ?_, ?_⟩
  · intro h1 h2
    unfold returnWindowDays
    rw [if_neg h1, if_neg h2]
    rfl
  · rintro ⟨o, w2, dl, hres⟩
    by_contra hnot
    rw [hstep, if_neg hnot] at hres
    split at hres <;> simp at hres
  · intro hlt
    exact ⟨_, _, _, by rw [hstep, if_pos hlt]⟩
  · intro hlt
    rw [hstep, if_pos hlt]
  · intro hnlt hnact
    rw [hstep, if_neg hnlt]
    simp [hnact]

/-- Witness for `eligibility_window_amended`: the delivered `orderW`
(category `books`, default 7-day window, delivered at time 0) evaluated at
time 7200 on the empty state is eligible with 6 whole days remaining and
deadline 604800. -/
theorem eligibility_window_amended_witness :
    check_eligibility stEmpty orderW RETURN_POLICY 7200 = EligStatus.ok 7 6 604800 := by
  have h := eligibility_window_amended stEmpty orderW 7200 0 7 604800 rfl rfl
    (by decide) (by decide)
  have h4 := h.2.2.2 (by decide) rfl
  exact h4

/-- C10: a creation request carrying a non-empty idempotency key that
matches an existing return short-circuits before the eligibility check —
the existing return is returned as an HTTP-200 success and the state is
completely untouched, with no eligibility hypothesis required. -/
theorem idempotency_precedes_eligibility (st : St) (order : Order)
    (data : CreateData) (policy : Policy) (now : Int) (freshId : Nat)
    (freshNumber : String) (k : String) (ex : ReturnRequest)
    (hk : data.idempotency_key = some k) (hne : k ≠ "")
    (hex : st.returns.find? (fun r => r.idempotency_key = some k) = some ex) :
    (create_return st order data policy now freshId freshNumber).1 = CreateResult.duplicate ex ∧
    (create_return st order data policy now freshId freshNumber).2 = st ∧
    createHttpStatus (CreateResult.duplicate ex) = 200 := by
  unfold create_return
  simp only [hk]
  rw [if_neg hne]
  simp only [hex]
  exact ⟨trivial, trivial, rfl⟩

/-- Witness for `idempotency_precedes_eligibility`: retrying key `idem-9`
100 days after delivery — when `orderW`'s return window has long expired —
still returns the stored `RET-1` with the state unchanged. -/
theorem idempotency_precedes_eligibility_witness :
    (create_return stC10 orderW dataC10 RETURN_POLICY 8640000 2 "RET-2").1 =
      CreateResult.duplicate
        { mkReturn 1 "RET-1" 1 7 .refund_completed with idempotency_key := some "idem-9" } ∧
    (create_return stC10 orderW dataC10 RETURN_POLICY 8640000 2 "RET-2").2 = stC10 ∧
    (check_eligibility stC10 orderW RETURN_POLICY 8640000).eligible = false := by
  have h := idempotency_precedes_eligibility stC10 orderW dataC10 RETURN_POLICY
    8640000 2 "RET-2" "idem-9"
    ({ mkReturn 1 "RET-1" 1 7 .refund_completed with idempotency_key := some "idem-9" })
    rfl (by decide) rfl
  exact ⟨h.1, h.2.1, rfl⟩

/-- Filtering an optional singleton whose element fails the predicate
yields the empty list. -/
theorem filter_ite_singleton_nil {α : Type} (p : α → Bool) (c : Prop)
    [Decidable c] (x : α) (h : p x = false) :
    List.filter p (if c then [x] else []) = [] := by
  split_ifs <;> simp [h]

/-- Filtering an optional singleton whose element satisfies the predicate
keeps it, giving length 1 exactly when the guard held. -/
theorem length_filter_ite_singleton {α : Type} (p : α → Bool) (c : Prop)
    [Decidable c] (x : α) (h : p x = true) :
    (List.filter p (if c then [x] else [])).length = if c then 1 else 0 := by
  split_ifs <;> simp [h]

/-- The fraud-flag pass creates exactly one `high_value` flag for the new
return when the order total meets the threshold and none otherwise,
provided no pre-existing flag references the new return's id. -/
theorem check_fraud_flags_highvalue_count (st : St) (rr : ReturnRequest)
    (order : Order) (policy : Policy) (now : Int) (rid : Nat)
    (hrid : rr.id = rid)
    (hfresh : ∀ f ∈ st.flags, f.return_id ≠ rid) :
    ((check_fraud_flags st rr order policy now).1.flags.filter
        (fun f => f.return_id = rid ∧ f.flag_type = "high_value")).length =
      if order.total_amount ≥ policy.high_value_threshold then 1 else 0 := by
  subst hrid
  have hstf : List.filter
      (fun f => decide (f.return_id = rr.id) && decide (f.flag_type = "high_value"))
      st.flags = [] := by
    rw [List.filter_eq_nil_iff]
    intro f hf
    simp [hfresh f hf]
  unfold check_fraud_flags
  rcases hda : order.delivered_at with _ | d <;>
    simp [hda, hstf, List.filter_append, filter_ite_singleton_nil,
      length_filter_ite_singleton, apply_ite (fun s : St => s.flags)]

/-- A hit in the idempotency lookup makes `create_return` return the
stored row unchanged. -/
theorem create_return_dup_eq (st : St) (order : Order) (data : CreateData)
    (policy : Policy) (now : Int) (freshId : Nat) (freshNumber : String)
    (ex : ReturnRequest)
    (hd : (match data.idempotency_key with
           | some k => if k = "" then none
             else st.returns.find? (fun r => r.idempotency_key = some k)
           | none => none) = some ex) :
    create_return st order data policy now freshId freshNumber =
      (CreateResult.duplicate ex, st) := by
  unfold create_return
  simp only [hd]

/-- A failed eligibility check makes `create_return` reject without
touching the state. -/
theorem create_return_inelig_eq (st : St) (order : Order) (data : CreateData)
    (policy : Policy) (now : Int) (freshId : Nat) (freshNumber : String)
    (hd : (match data.idempotency_key with
           | some k => if k = "" then none
             else st.returns.find? (fun r => r.idempotency_key = some k)
           | none => none) = (none : Option ReturnRequest))
    (helig : (check_eligibility st order policy now).eligible = false) :
    create_return st order data policy now freshId freshNumber =
      (CreateResult.notEligible
        (eligReason order.category (check_eligibility st order policy now)), st) := by
  unfold create_return
  simp only [hd, helig, Bool.false_eq_true, if_false, reduceIte]

/-- On the happy path — no idempotency hit, eligibility positive —
`create_return` produces exactly the new row, the initial history entry,
and the fraud-flag pass output. -/
theorem create_return_happy_eq (st : St) (order : Order) (data : CreateData)
    (policy : Policy) (now : Int) (freshId : Nat) (freshNumber : String)
    (hd : (match data.idempotency_key with
           | some k => if k = "" then none
             else st.returns.find? (fun r => r.idempotency_key = some k)
           | none => none) = (none : Option ReturnRequest))
    (heq : (check_eligibility st order policy now).eligible = true) :
    create_return st order data policy now freshId freshNumber =
      (let rr : ReturnRequest :=
        { id := freshId
          return_number := freshNumber
          order_id := order.id
          customer_id := order.customer_id
          customer_name := order.customer_name
          customer_email := order.customer_email
          reason := data.reason
          reason_description := data.reason_description
          status := if order.total_amount ≥ policy.high_value_threshold then .pending else .approved
          refund_method := data.refund_method
          refund_amount := order.total_amount
          refund_reference := ""
          pickup_address := data.pickup_address
          pickup_pincode := data.pickup_pincode
          pickup_scheduled_date := none
          pickup_completed_date := none
          logistics_partner := ""
          tracking_number := ""
          idempotency_key := data.idempotency_key
          is_flagged := false
          is_high_value := order.total_amount ≥ policy.high_value_threshold
          created_at := now }
       let row1 : HistoryRow :=
        { return_id := freshId, from_status := none, to_status := rr.status
          changed_by := "system"
          comment := "Return request created. Reason: " ++ data.reason }
       let st2 : St := { st with returns := st.returns ++ [rr]
                                 history := st.history ++ [row1] }
       let cf := check_fraud_flags st2 rr order policy now
       (CreateResult.created
          (if cf.2.isEmpty then rr else { rr with is_flagged := true }), cf.1)) := by
  unfold create_return
  simp only [hd, heq, reduceIte]

/-- C3: whenever creation succeeds, the new return starts `pending` with
`is_high_value = true` and exactly one `high_value` fraud flag when the
order total meets `HIGH_VALUE_THRESHOLD`, and starts `approved` with
`is_high_value = false` and no `high_value` flag when it is strictly
below; both branches read the same policy threshold, so
`is_high_value = true` holds exactly when a `high_value` flag exists. -/
theorem high_value_creation (st : St) (order : Order) (data : CreateData)
    (policy : Policy) (now : Int) (freshId : Nat) (freshNumber : String)
    (rr : ReturnRequest)
    (hfresh : ∀ f ∈ st.flags, f.return_id ≠ freshId)
    (hres : (create_return st order data policy now freshId freshNumber).1 =
      CreateResult.created rr) :
    rr.id = freshId ∧
    rr.status = (if order.total_amount ≥ policy.high_value_threshold
      then RStatus.pending else RStatus.approved) ∧
    (rr.is_high_value = true ↔ order.total_amount ≥ policy.high_value_threshold) ∧
    ((create_return st order data policy now freshId freshNumber).2.flags.filter
        (fun f => f.return_id = freshId ∧ f.flag_type = "high_value")).length =
      (if order.total_amount ≥ policy.high_value_threshold then 1 else 0) ∧
    (rr.is_high_value = true ↔
      0 < ((create_return st order data policy now freshId freshNumber).2.flags.filter
        (fun f => f.return_id = freshId ∧ f.flag_type = "high_value")).length) := by
  rcases hd : (match data.idempotency_key with
      | some k => if k = "" then none
        else st.returns.find? (fun r : ReturnRequest => r.idempotency_key = some k)
      | none => none) with _ | ex
  · cases heq : (check_eligibility st order policy now).eligible
    · rw [create_return_inelig_eq st order data policy now freshId freshNumber hd heq] at hres
      exact absurd hres (by simp)
    · have h4 : ((create_return st order data policy now freshId freshNumber).2.flags.filter
          (fun f => f.return_id = freshId ∧ f.flag_type = "high_value")).length =
          (if order.total_amount ≥ policy.high_value_threshold then 1 else 0) := by
        rw [create_return_happy_eq st order data policy now freshId freshNumber hd heq]
        refine check_fraud_flags_highvalue_count _ _ order policy now freshId rfl ?_
        intro f hf
        exact hfresh f hf
      rw [create_return_happy_eq st order data policy now freshId freshNumber hd heq] at hres
      simp only [CreateResult.created.injEq] at hres
      subst hres
      refine ⟨?_, ?_, ?_, h4, ?_⟩
      · simp [apply_ite (fun r : ReturnRequest => r.id)]
      · simp [apply_ite (fun r : ReturnRequest => r.status)]
      · simp [apply_ite (fun r : ReturnRequest => r.is_high_value), decide_eq_true_eq]
      · rw [h4]
        by_cases hv : order.total_amount ≥ policy.high_value_threshold <;>
          simp [hv, apply_ite (fun r : ReturnRequest => r.is_high_value)]
  · rw [create_return_dup_eq st order data policy now freshId freshNumber ex hd] at hres
    exact absurd hres (by simp)

/-- The return created for the high-value `orderHV` in the witness run. -/
def rrC3 : ReturnRequest :=
  { mkReturn 1 "RET-1" 2 7 .pending with
    refund_amount := 15000, is_flagged := true, is_high_value := true
    created_at := 7200 }

/-- Witness for `high_value_creation`: creating a return for the
Rs.15,000 `orderHV` yields a pending, high-value, flagged return with
exactly one `high_value` fraud flag. -/
theorem high_value_creation_witness :
    rrC3.status = RStatus.pending ∧
    rrC3.is_high_value = true ∧
    ((create_return stEmpty orderHV dataW RETURN_POLICY 7200 1 "RET-1").2.flags.filter
        (fun f => f.return_id = 1 ∧ f.flag_type = "high_value")).length = 1 := by
  have h := high_value_creation stEmpty orderHV dataW RETURN_POLICY 7200 1 "RET-1" rrC3
    (by intro f hf; simp [stEmpty] at hf) rfl
  exact ⟨h.2.1.trans (by decide), h.2.2.1.mpr (by decide), h.2.2.2.1.trans (by decide)⟩

/-- Filtering after a map that leaves the predicate's verdict unchanged
preserves the match count. -/
theorem length_filter_map_eq {α : Type} (l : List α) (g : α → α) (p : α → Bool)
    (h : ∀ x, p (g x) = p x) :
    ((l.map g).filter p).length = (l.filter p).length := by
  rw [List.filter_map, List.length_map]
  exact congrArg List.length (List.filter_congr (fun x _ => h x))

/-- The fraud-flag pass either leaves the returns untouched or applies the
`is_flagged` update map to them. -/
theorem check_fraud_flags_returns_cases (st : St) (rr : ReturnRequest)
    (order : Order) (policy : Policy) (now : Int) :
    (check_fraud_flags st rr order policy now).1.returns = st.returns ∨
    (check_fraud_flags st rr order policy now).1.returns =
      st.returns.map (fun r => if r.id = rr.id then { r with is_flagged := true } else r) := by
  unfold check_fraud_flags
  rcases hda : order.delivered_at with _ | d <;> simp only [hda] <;> split_ifs <;> simp

/-- Inversion of the happy creation path: the resulting state is the
fraud-flag pass applied to the state extended with one new row whose key
fields are as the request dictates. -/
theorem create_return_created_inv (st : St) (order : Order) (data : CreateData)
    (policy : Policy) (now : Int) (freshId : Nat) (freshNumber : String)
    (hd : (match data.idempotency_key with
           | some k => if k = "" then none
             else st.returns.find? (fun r : ReturnRequest => r.idempotency_key = some k)
           | none => none) = (none : Option ReturnRequest))
    (heq : (check_eligibility st order policy now).eligible = true) :
    ∃ (rr0 : ReturnRequest) (st2 : St),
      (create_return st order data policy now freshId freshNumber).2 =
        (check_fraud_flags st2 rr0 order policy now).1 ∧
      (create_return st order data policy now freshId freshNumber).1 =
        CreateResult.created (if (check_fraud_flags st2 rr0 order policy now).2.isEmpty
          then rr0 else { rr0 with is_flagged := true }) ∧
      rr0.id = freshId ∧ rr0.return_number = freshNumber ∧
      rr0.idempotency_key = data.idempotency_key ∧
      st2.returns = st.returns ++ [rr0] ∧ st2.flags = st.flags := by
  rw [create_return_happy_eq st order data policy now freshId freshNumber hd heq]
  exact ⟨_, _, rfl, rfl, rfl, rfl, rfl, rfl, rfl⟩

/-- A state in which some return carries the key, and every keyed return
carries the given number, makes any further creation request with that key
short-circuit to a duplicate bearing that number. -/
theorem dup_of_keyed_member (st1 : St) (order : Order) (data : CreateData)
    (policy : Policy) (now : Int) (fid : Nat) (fnum : String) (k num : String)
    (hk : k ≠ "") (h2 : data.idempotency_key = some k)
    (hsome : ∃ x ∈ st1.returns, x.idempotency_key = some k)
    (hall : ∀ x ∈ st1.returns, x.idempotency_key = some k → x.return_number = num) :
    ∃ ex, create_return st1 order data policy now fid fnum =
        (CreateResult.duplicate ex, st1) ∧ ex.return_number = num := by
  have hs : (st1.returns.find? (fun r : ReturnRequest => r.idempotency_key = some k)).isSome = true := by
    rw [List.find?_isSome]
    rcases hsome with ⟨x, hx, hxk⟩
    exact ⟨x, hx, by simpa using hxk⟩
  rcases hfx : st1.returns.find? (fun r : ReturnRequest => r.idempotency_key = some k) with _ | ex
  · rw [hfx] at hs
    simp at hs
  · refine ⟨ex, ?_, ?_⟩
    · exact create_return_dup_eq st1 order data policy now fid fnum ex
        (by simp only [h2]; rw [if_neg hk]; exact hfx)
    · have hmem := List.mem_of_find?_eq_some hfx
      have hkey := List.find?_some hfx
      exact hall ex hmem (by simpa using hkey)

/-- C4: when a creation request with a non-empty idempotency key succeeds,
a second request carrying the same key short-circuits to an HTTP-200
duplicate of the stored return — same return number, no state change —
and exactly one return row with that key exists afterward; the HTTP codes
200 and 201 let the caller tell the duplicate hit from the creation. -/
theorem idempotent_creation (st : St) (order1 order2 : Order)
    (data1 data2 : CreateData) (policy : Policy) (now1 now2 : Int)
    (id1 id2 : Nat) (num1 num2 : String) (k : String) (rr1 : ReturnRequest)
    (hk : k ≠ "")
    (h1 : data1.idempotency_key = some k) (h2 : data2.idempotency_key = some k)
    (hres1 : (create_return st order1 data1 policy now1 id1 num1).1 =
      CreateResult.created rr1) :
    ∃ ex : ReturnRequest,
      create_return (create_return st order1 data1 policy now1 id1 num1).2
          order2 data2 policy now2 id2 num2 =
        (CreateResult.duplicate ex, (create_return st order1 data1 policy now1 id1 num1).2) ∧
      ex.return_number = rr1.return_number ∧
      ((create_return st order1 data1 policy now1 id1 num1).2.returns.filter
          (fun r => r.idempotency_key = some k)).length = 1 ∧
      createHttpStatus (CreateResult.duplicate ex) = 200 ∧
      createHttpStatus (CreateResult.created rr1) = 201 := by
  have hf1 : st.returns.find? (fun r : ReturnRequest => r.idempotency_key = some k) = none := by
    cases hf : st.returns.find? (fun r : ReturnRequest => r.idempotency_key = some k)
    · rfl
    · rename_i ex0
      rw [create_return_dup_eq st order1 data1 policy now1 id1 num1 ex0
        (by simp only [h1]; rw [if_neg hk]; exact hf)] at hres1
      exact absurd hres1 (by simp)
  have hd1 : (match data1.idempotency_key with
      | some k' => if k' = "" then none
        else st.returns.find? (fun r : ReturnRequest => r.idempotency_key = some k')
      | none => none) = (none : Option ReturnRequest) := by
    simp only [h1]
    rw [if_neg hk]
    exact hf1
  have hnomatch : ∀ x ∈ st.returns, ¬ x.idempotency_key = some k := by
    intro x hx
    have := List.find?_eq_none.mp hf1 x hx
    simpa using this
  cases heq : (check_eligibility st order1 policy now1).eligible
  · rw [create_return_inelig_eq st order1 data1 policy now1 id1 num1 hd1 heq] at hres1
    exact absurd hres1 (by simp)
  · obtain ⟨rr0, st2, hst1, hres1e, hid0, hnum0, hkey0, hret2, hflags2⟩ :=
      create_return_created_inv st order1 data1 policy now1 id1 num1 hd1 heq
    have hrr1 : (if (check_fraud_flags st2 rr0 order1 policy now1).2.isEmpty then rr0
        else { rr0 with is_flagged := true }) = rr1 := by
      have h := hres1e.symm.trans hres1
      simpa using h
    have hrr1num : rr1.return_number = num1 := by
      rw [← hrr1]
      split_ifs
      · exact hnum0
      · simpa using hnum0
    have hkey0' : rr0.idempotency_key = some k := hkey0.trans h1
    rcases check_fraud_flags_returns_cases st2 rr0 order1 policy now1 with hc | hc
    · have hretS : (create_return st order1 data1 policy now1 id1 num1).2.returns =
          st.returns ++ [rr0] := by rw [hst1, hc, hret2]
      have hsome : ∃ x ∈ (create_return st order1 data1 policy now1 id1 num1).2.returns,
          x.idempotency_key = some k := by
        rw [hretS]
        exact ⟨rr0, by simp, hkey0'⟩
      have hall : ∀ x ∈ (create_return st order1 data1 policy now1 id1 num1).2.returns,
          x.idempotency_key = some k → x.return_number = num1 := by
        rw [hretS]
        intro x hx hxk
        rcases List.mem_append.mp hx with hx | hx
        · exact absurd hxk (hnomatch x hx)
        · rw [List.mem_singleton] at hx
          subst hx
          exact hnum0
      have hcount : ((create_return st order1 data1 policy now1 id1 num1).2.returns.filter
          (fun r => r.idempotency_key = some k)).length = 1 := by
        rw [hretS, List.filter_append,
          List.filter_eq_nil_iff.mpr (fun x hx => by simpa using hnomatch x hx)]
        simp [hkey0']
      obtain ⟨ex, hexeq, hexnum⟩ := dup_of_keyed_member
        ((create_return st order1 data1 policy now1 id1 num1).2)
        order2 data2 policy now2 id2 num2 k num1 hk h2 hsome hall
      exact ⟨ex, hexeq, hexnum.trans hrr1num.symm, hcount, rfl, rfl⟩
    · have hretS : (create_return st order1 data1 policy now1 id1 num1).2.returns =
          (st.returns ++ [rr0]).map
            (fun r => if r.id = rr0.id then { r with is_flagged := true } else r) := by
        rw [hst1, hc, hret2]
      have hgkey : ∀ x : ReturnRequest,
          (if x.id = rr0.id then { x with is_flagged := true } else x).idempotency_key =
            x.idempotency_key := by
        intro x
        split_ifs <;> rfl
      have hgnum : ∀ x : ReturnRequest,
          (if x.id = rr0.id then { x with is_flagged := true } else x).return_number =
            x.return_number := by
        intro x
        split_ifs <;> rfl
      have hsome : ∃ x ∈ (create_return st order1 data1 policy now1 id1 num1).2.returns,
          x.idempotency_key = some k := by
        rw [hretS]
        refine ⟨(fun r : ReturnRequest =>
          if r.id = rr0.id then { r with is_flagged := true } else r) rr0,
          List.mem_map_of_mem _ (by simp), ?_⟩
        simpa [hgkey rr0] using hkey0'
      have hall : ∀ x ∈ (create_return st order1 data1 policy now1 id1 num1).2.returns,
          x.idempotency_key = some k → x.return_number = num1 := by
        rw [hretS]
        intro x hx hxk
        rcases List.mem_map.mp hx with ⟨y, hy, rfl⟩
        rw [hgkey y] at hxk
        rw [hgnum y]
        rcases List.mem_append.mp hy with hy | hy
        · exact absurd hxk (hnomatch y hy)
        · rw [List.mem_singleton] at hy
          subst hy
          exact hnum0
      have hcount : ((create_return st order1 data1 policy now1 id1 num1).2.returns.filter
          (fun r => r.idempotency_key = some k)).length = 1 := by
        rw [hretS, length_filter_map_eq _ _ _ (fun x => by simp [hgkey x]),
          List.filter_append,
          List.filter_eq_nil_iff.mpr (fun x hx => by simpa using hnomatch x hx)]
        simp [hkey0']
      obtain ⟨ex, hexeq, hexnum⟩ := dup_of_keyed_member
        ((create_return st order1 data1 policy now1 id1 num1).2)
        order2 data2 policy now2 id2 num2 k num1 hk h2 hsome hall
      exact ⟨ex, hexeq, hexnum.trans hrr1num.symm, hcount, rfl, rfl⟩

/-- The return created by the first keyed request in the witness run. -/
def rrC4 : ReturnRequest :=
  { mkReturn 1 "RET-1" 1 7 .approved with
    idempotency_key := some "idem-1", created_at := 7200 }

/-- Witness for `idempotent_creation`: two requests with key `idem-1`
against `orderW` — the second returns the stored `RET-1` as a duplicate
with the state unchanged, and exactly one row carries the key. -/
theorem idempotent_creation_witness :
    ∃ ex : ReturnRequest,
      create_return (create_return stEmpty orderW dataK RETURN_POLICY 7200 1 "RET-1").2
          orderW dataK RETURN_POLICY 7300 2 "RET-2" =
        (CreateResult.duplicate ex,
          (create_return stEmpty orderW dataK RETURN_POLICY 7200 1 "RET-1").2) ∧
      ex.return_number = "RET-1" ∧
      ((create_return stEmpty orderW dataK RETURN_POLICY 7200 1 "RET-1").2.returns.filter
          (fun r => r.idempotency_key = some "idem-1")).length = 1 := by
  obtain ⟨ex, he, hn, hc, _, _⟩ := idempotent_creation stEmpty orderW orderW dataK dataK
    RETURN_POLICY 7200 7300 1 2 "RET-1" "RET-2" "idem-1" rrC4
    (by decide) rfl rfl rfl
  exact ⟨ex, he, hn.trans rfl, hc⟩

/-- Mapping, then filtering with a predicate whose verdict the map fixes
up as `Q`, then projecting with a map-invariant row builder, equals
filtering the original list with `Q` and projecting. -/
theorem filter_map_rows {α β : Type} (l : List α) (f : α → α) (P Q : α → Bool)
    (mk : α → β) (h1 : ∀ r, P (f r) = Q r) (h2 : ∀ r, mk (f r) = mk r) :
    ((l.map f).filter P).map mk = (l.filter Q).map mk := by
  rw [List.filter_map, List.map_map]
  have hf : List.filter (P ∘ f) l = List.filter Q l :=
    List.filter_congr (fun x _ => by simpa [Function.comp] using h1 x)
  rw [hf]
  exact List.map_congr_left (fun x _ => by simpa [Function.comp] using h2 x)

/-- Counterexample for C8 as stated: in `stC8` only one selected return is
`pending`, yet bulk-approve appends two history rows — the already
approved `RET-2` receives a spurious row claiming `from_status=pending` —
and mark-pickup transitions one return while appending no history row at
all. -/
theorem admin_actions_counterexample :
    (stC8.returns.filter (fun r => r.status = RStatus.pending)).length = 1 ∧
    (approve_returns stC8 [1, 2] "alice").history.length = 2 ∧
    (approve_returns stC8 [1, 2] "alice").history.map (fun h => h.from_status) =
      [some RStatus.pending, some RStatus.pending] ∧
    ((mark_as_pickup_scheduled stC8 [2]).returns.filter
        (fun r => r.status = RStatus.pickup_scheduled)).length = 1 ∧
    (mark_as_pickup_scheduled stC8 [2]).history = [] :=
  ⟨rfl, rfl, rfl, rfl, rfl⟩

/-- C8 (amended): bulk-approve transitions exactly the selected `pending`
returns to `approved`, but appends one `pending → approved` history row
with actor `admin:<name>` for every selected return whose status reads
`approved` after the update — including selected returns that were already
`approved`, which receive a spurious row; selected returns in other
statuses keep their status.  Mark-pickup transitions exactly the selected
`approved` returns to `pickup_scheduled` and appends no history rows. -/
theorem admin_actions_amended (st : St) (selected : List Nat) (username : String) :
    (approve_returns st selected username).returns =
      st.returns.map (fun r => if r.id ∈ selected ∧ r.status = RStatus.pending then
        { r with status := RStatus.approved } else r) ∧
    (approve_returns st selected username).history = st.history ++
      (st.returns.filter (fun r => r.id ∈ selected ∧
          (r.status = RStatus.pending ∨ r.status = RStatus.approved))).map
        (fun r => ({ return_id := r.id, from_status := some RStatus.pending
                     to_status := RStatus.approved
                     changed_by := "admin:" ++ username
                     comment := "Bulk approved via admin panel" } : HistoryRow)) ∧
    (mark_as_pickup_scheduled st selected).returns =
      st.returns.map (fun r => if r.id ∈ selected ∧ r.status = RStatus.approved then
        { r with status := RStatus.pickup_scheduled } else r) ∧
    (mark_as_pickup_scheduled st selected).history = st.history := by
  refine ⟨rfl, ?_, rfl, rfl⟩
  show st.history ++ _ = st.history ++ _
  congr 1
  refine filter_map_rows st.returns _ _ _ _ ?_ ?_
  · intro r
    by_cases h1 : r.id ∈ selected <;> cases hst : r.status <;> simp [h1, hst]
  · intro r
    split_ifs <;> rfl

/-- Counterexample for C9 as stated: on the 25-row state `stC9` the
spec's cursor pagination honours a requested page size of 5 (five
results, `has_more = true`), while the source's `list_returns` has no
cursor or page-size input at all and always returns the fixed 20-row
page slice. -/
theorem list_pagination_counterexample :
    (list_returns stC9 none none none 1).results.length = 20 ∧
    (list_returns_specModel stC9.returns none 5).results.length = 5 ∧
    (list_returns_specModel stC9.returns none 5).hasMore = true :=
  ⟨rfl, rfl, rfl⟩

/-- C9 (amended): the list operation paginates by page number with the
hard-coded page size 20, ignoring any cursor or requested page size; a
page holds at most 20 results, page 1 holds `min 20 count` results, and
the response's total count — rather than a `has_more` flag — reveals
whether more than the returned 20 rows exist. -/
theorem list_pagination_amended (st : St) (customerId : Option Nat)
    (statusFilter : Option String) (isFlagged : Option String) (page : Nat) :
    (list_returns st customerId statusFilter isFlagged page).pageSize = 20 ∧
    (list_returns st customerId statusFilter isFlagged page).results.length ≤ 20 ∧
    (list_returns st customerId statusFilter isFlagged 1).results.length =
      min 20 (list_returns st customerId statusFilter isFlagged 1).count ∧
    (20 < (list_returns st customerId statusFilter isFlagged 1).count ↔
      (list_returns st customerId statusFilter isFlagged 1).results.length <
        (list_returns st customerId statusFilter isFlagged 1).count) := by
  refine ⟨rfl, ?_, ?_, ?_⟩
  · unfold list_returns
    simp only [List.length_take]
    exact Nat.min_le_left _ _
  · unfold list_returns
    simp [List.length_take]
  · unfold list_returns
    simp only [List.length_take, List.drop_zero, Nat.sub_self, Nat.zero_mul,
      Nat.one_mul]
    omega
